import Mathlib

/-!
Verification of the log-analysis core in src/analyzer/mod.rs: platform
detection from startup-log lines, plugin/version extraction, and port
extraction driven by an external pattern table.

The line-level StaticAnalyzer primitives (plugin_bukkit,
noproxy_server_version, vanilla_port, port) and the toml parser live
outside the analyzer module and are treated by the specification as
black-box collaborators; they are modelled here as explicit function
parameters, so every theorem quantifies over all possible behaviours of
these primitives.
-/

set_option maxRecDepth 8000

/-- Substring search on char lists: does the pattern occur contiguously in
the haystack? Models Rust str::contains with a string pattern (valid UTF-8
is self-synchronizing, so byte-level substring equals char-level infix). -/
def containsSub (hay pat : List Char) : Bool :=
  match hay with
  | [] => pat.isEmpty
  | _ :: t => pat.isPrefixOf hay || containsSub t pat

/-- line.contains(pat) on Rust string slices. -/
def strContains (s pat : String) : Bool :=
  containsSub s.data pat.data

/-- Platform enum from src/analyzer/mod.rs. -/
inductive Platform where
  | Vanilla
  | CraftBukkit
  | Spigot
  | Paper
  | Pufferfish
  | Purpur
  | Fabric
  | Forge
  | BungeeCord
  | Waterfall
  | Velocity
deriving DecidableEq

/-- Marker constant CRAFTBUKKIT in determine_platform. -/
def CRAFTBUKKIT : String := "This server is running CraftBukkit version"

/-- Marker constant PAPER in determine_platform. -/
def PAPER : String := "This server is running Paper version"

/-- Marker constant PUFFERFISH in determine_platform. -/
def PUFFERFISH : String := "This server is running Pufferfish version"

/-- Marker constant PURPUR in determine_platform. -/
def PURPUR : String := "This server is running Purpur version"

/-- Marker constant FABRIC in determine_platform. -/
def FABRIC : String := "with Fabric Loader"

/-- Marker constant FORGE in determine_platform. -/
def FORGE : String := "Forge mod loading, version"

/-- Marker constant BUNGEECORD in determine_platform. -/
def BUNGEECORD : String := "Enabled BungeeCord version"

/-- Marker constant WATERFALL in determine_platform. -/
def WATERFALL : String := "Enabled Waterfall version"

/-- Marker constant VELOCITY in determine_platform. -/
def VELOCITY : String := "Booting up Velocity"

/-- determine_platform from src/analyzer/mod.rs. The source's early
returns become an if/match chain; the empty `if any PAPER` block inside
the None branch (dead code, since the Paper check already returned)
falls through to the trailing Platform::Vanilla, hence the Vanilla
result on that (unreachable) branch. -/
def determine_platform (lines : List String) : Platform :=
  let craftbukkit_option := lines.find? (fun line => strContains line CRAFTBUKKIT)
  if lines.any (fun line => strContains line PAPER) then
    Platform.Paper
  else
    match craftbukkit_option with
    | some line =>
      if strContains line "-Spigot" then Platform.Spigot
      else if strContains line "Paper" then Platform.Paper
      else Platform.CraftBukkit
    | none =>
      if lines.any (fun line => strContains line PAPER) then Platform.Vanilla
      else if lines.any (fun line => strContains line PURPUR) then Platform.Purpur
      else if lines.any (fun line => strContains line PUFFERFISH) then Platform.Pufferfish
      else if lines.any (fun line => strContains line BUNGEECORD) then Platform.BungeeCord
      else if lines.any (fun line => strContains line WATERFALL) then Platform.Waterfall
      else if lines.any (fun line => strContains line VELOCITY) then Platform.Velocity
      else if lines.any (fun line => strContains line FORGE) then Platform.Forge
      else if lines.any (fun line => strContains line FABRIC) then Platform.Fabric
      else Platform.Vanilla

/-- Model of HashMap insert: the observable content of the map is its
key/value association; insert replaces any previous binding of the key. -/
def mapInsert {α : Type} (m : List (String × α)) (k : String) (v : α) : List (String × α) :=
  (k, v) :: m.filter (fun p => !(p.1 == k))

/-- Model of HashMap get: first (hence only) binding of the key. -/
def mapFind {α : Type} (m : List (String × α)) (k : String) : Option α :=
  (m.find? (fun p => p.1 == k)).map (fun p => p.2)

/-- Plugin record from src/analyzer/mod.rs. -/
structure Plugin where
  name : String
  version : String

/-- VanillaPorts record from src/analyzer/mod.rs (u16 ports as Nat). -/
structure VanillaPorts where
  server : Option Nat
  query : Option Nat
  rcon : Option Nat
deriving DecidableEq

/-- Ports record from src/analyzer/mod.rs. -/
structure Ports where
  vanilla : VanillaPorts
  plugins : List (String × Nat)
  mods : List (String × Nat)

/-- PluginModPorts: the two sections of the ports.toml pattern table; a
HashMap name -> list of required substrings, modelled as the association
list the iteration walks. -/
structure PluginModPorts where
  plugins : List (String × List String)
  mods : List (String × List String)

/-- PortsRoot: parsed shape of configuration/ports.toml. -/
structure PortsRoot where
  ports : PluginModPorts

/-- Analyzer from src/analyzer/mod.rs. -/
structure Analyzer where
  lines : List String
  platform : Platform

/-- Analyzer::new. -/
def Analyzer.new (lines : List String) : Analyzer :=
  { lines := lines, platform := determine_platform lines }

/-- Analyzer::is_proxy (reads self.platform). -/
def is_proxy (platform : Platform) : Bool :=
  match platform with
  | Platform.BungeeCord | Platform.Waterfall | Platform.Velocity => true
  | _ => false

/-- Analyzer::is_modded (reads self.platform). -/
def is_modded (platform : Platform) : Bool :=
  match platform with
  | Platform.Forge | Platform.Fabric => true
  | _ => false

/-- Analyzer::is_bukkit_based (reads self.platform). -/
def is_bukkit_based (platform : Platform) : Bool :=
  match platform with
  | Platform.CraftBukkit | Platform.Spigot | Platform.Paper
  | Platform.Pufferfish | Platform.Purpur => true
  | _ => false

/-- Analyzer::plugins. plugin_bukkit is the black-box
StaticAnalyzer::plugin_bukkit line primitive. -/
def Analyzer.plugins (plugin_bukkit : String → Option Plugin)
    (a : Analyzer) (line_limit : Nat) : List (String × String) :=
  (a.lines.take line_limit).foldl
    (fun plugins line =>
      if is_proxy a.platform then plugins
      else if is_bukkit_based a.platform then
        match plugin_bukkit line with
        | none => plugins
        | some plugin => mapInsert plugins plugin.name plugin.version
      else plugins)
    []

/-- The non-proxy loop of Analyzer::version: return the first Some the
primitive yields, else fall through to None. -/
def findFirstVersion (noproxy_server_version : String → Option String) :
    List String → Option String
  | [] => none
  | line :: rest =>
    match noproxy_server_version line with
    | none => findFirstVersion noproxy_server_version rest
    | some ver => some ver

/-- Analyzer::version. In the proxy branch the source matches on the
platform with empty arms and falls through to None. -/
def Analyzer.version (noproxy_server_version : String → Option String)
    (a : Analyzer) : Option String :=
  if is_proxy a.platform then none
  else findFirstVersion noproxy_server_version a.lines

/-- Marker constant SERVER_PORT_MESSAGE in Analyzer::vanilla_ports. -/
def SERVER_PORT_MESSAGE : String := "Starting Minecraft server on"

/-- Marker constant QUERY_PORT_MESSAGE in Analyzer::vanilla_ports. -/
def QUERY_PORT_MESSAGE : String := "Query running on"

/-- Marker constant RCON_PORT_MESSAGE in Analyzer::vanilla_ports. -/
def RCON_PORT_MESSAGE : String := "RCON running on"

/-- Analyzer::vanilla_ports. vanilla_port is the black-box
StaticAnalyzer::vanilla_port (line, marker) primitive. -/
def Analyzer.vanilla_ports (vanilla_port : String → String → Option Nat)
    (a : Analyzer) : VanillaPorts :=
  a.lines.foldl
    (fun vp line =>
      let vp1 :=
        match vanilla_port line SERVER_PORT_MESSAGE with
        | none => vp
        | some port => { vp with server := some port }
      let vp2 :=
        match vanilla_port line QUERY_PORT_MESSAGE with
        | none => vp1
        | some port => { vp1 with query := some port }
      match vanilla_port line RCON_PORT_MESSAGE with
      | none => vp2
      | some port => { vp2 with rcon := some port })
    { server := none, query := none, rcon := none }

/-- Analyzer::plugin_ports. port is the black-box StaticAnalyzer::port
(port name, line, must_contain) primitive. -/
def Analyzer.plugin_ports (port : String → String → String → Option (String × Nat))
    (a : Analyzer) (ports_root : PortsRoot) (ports_lines_limit : Nat) :
    List (String × Nat) :=
  if !(is_bukkit_based a.platform) then []
  else
    (a.lines.take ports_lines_limit).foldl
      (fun ports line =>
        ports_root.ports.plugins.foldl
          (fun ports entry =>
            entry.2.foldl
              (fun ports must_contain =>
                match port entry.1 line must_contain with
                | none => ports
                | some result => mapInsert ports result.1 result.2)
              ports)
          ports)
      []

/-- Analyzer::mod_ports: body identical to plugin_ports, but gated on
is_modded and reading the mods section of the table. -/
def Analyzer.mod_ports (port : String → String → String → Option (String × Nat))
    (a : Analyzer) (ports_root : PortsRoot) (ports_lines_limit : Nat) :
    List (String × Nat) :=
  if !(is_modded a.platform) then []
  else
    (a.lines.take ports_lines_limit).foldl
      (fun ports line =>
        ports_root.ports.mods.foldl
          (fun ports entry =>
            entry.2.foldl
              (fun ports must_contain =>
                match port entry.1 line must_contain with
                | none => ports
                | some result => mapInsert ports result.1 result.2)
              ports)
          ports)
      []

/-- DynamicAnalyzerDetails from src/analyzer/mod.rs. -/
structure DynamicAnalyzerDetails where
  lines : List String
  plugins : List (String × String)
  platform : Platform
  version : Option String
  is_modded : Bool
  is_proxy : Bool
  is_bukkit_based : Bool
  ports : Ports

/-- Outcome of Analyzer::build: either a report, or the process aborts
(a Rust panic from .unwrap(), which carries no recoverable error value). -/
inductive BuildResult (α : Type) where
  | ok (value : α)
  | processAbort

/-- Analyzer::build. read_ports_file models the outcome of
std::fs::read_to_string on configuration/ports.toml (none = the read
failed, e.g. the file is missing); toml_from_str models toml::from_str
(none = the content does not parse into the PortsRoot shape). The
source's .unwrap() on either failure is a panic, modelled as
BuildResult.processAbort. -/
def Analyzer.build (plugin_bukkit : String → Option Plugin)
    (noproxy_server_version : String → Option String)
    (vanilla_port : String → String → Option Nat)
    (port : String → String → String → Option (String × Nat))
    (read_ports_file : Option String)
    (toml_from_str : String → Option PortsRoot)
    (a : Analyzer) (plugins_limit ports_limit : Nat) :
    BuildResult DynamicAnalyzerDetails :=
  match read_ports_file with
  | none => BuildResult.processAbort
  | some ports_file =>
    match toml_from_str ports_file with
    | none => BuildResult.processAbort
    | some ports_root =>
      BuildResult.ok
        { lines := a.lines
          plugins := a.plugins plugin_bukkit plugins_limit
          platform := a.platform
          version := a.version noproxy_server_version
          is_modded := is_modded a.platform
          is_proxy := is_proxy a.platform
          is_bukkit_based := is_bukkit_based a.platform
          ports :=
            { vanilla := a.vanilla_ports vanilla_port
              plugins := a.plugin_ports port ports_root ports_limit
              mods := a.mod_ports port ports_root ports_limit } }

/-- The flattened sequence of successful extractions performed by the
plugin_ports / mod_ports triple loop: line-major, then table entry, then
required substring (each substring an independent alternative trigger). -/
def portEvents (port : String → String → String → Option (String × Nat))
    (lines : List String) (table : List (String × List String)) :
    List (String × Nat) :=
  lines.flatMap (fun line =>
    table.flatMap (fun entry =>
      entry.2.filterMap (fun must_contain => port entry.1 line must_contain)))

/-- Concrete plugin-line extractor used by witness instantiations. -/
def pbW : String → Option Plugin := fun line =>
  if line == "pa" then some { name := "A", version := "1" }
  else if line == "pb" then some { name := "A", version := "2" }
  else if line == "pc" then some { name := "A", version := "3" }
  else none

/-- Concrete port extractor used by witness instantiations: fires when the
line contains the required substring, reporting the line's length as port. -/
def ppW : String → String → String → Option (String × Nat) :=
  fun name line must_contain =>
    if strContains line must_contain then some (name, line.length) else none

/-- Concrete pattern table used by witness instantiations. -/
def rootW : PortsRoot :=
  { ports := { plugins := [("svc", ["foo", "bar"])], mods := [("modsvc", ["baz"])] } }

/-- The report that Analyzer::build produces on an empty Forge-classified
line set with trivially failing extractors; used by witness instantiations. -/
def reportW : DynamicAnalyzerDetails :=
  { lines := []
    plugins := []
    platform := Platform.Forge
    version := none
    is_modded := true
    is_proxy := false
    is_bukkit_based := false
    ports :=
      { vanilla := { server := none, query := none, rcon := none }
        plugins := []
        mods := [] } }

theorem foldl_const {β γ : Type} (l : List β) (m : γ) :
    l.foldl (fun acc _ => acc) m = m := by
  induction l generalizing m with
  | nil => rfl
  | cons x t ih => simp only [List.foldl_cons]; exact ih m

theorem getLast?_cons_or {α : Type} (l : List α) (a : α) :
    (a :: l).getLast? = l.getLast?.or (some a) := by
  induction l generalizing a with
  | nil => rfl
  | cons b t ih => rw [List.getLast?_cons_cons, ih b, Option.or_assoc, Option.or_some]

theorem option_map_or {α β : Type} (f : α → β) (a b : Option α) :
    (a.or b).map f = (a.map f).or (b.map f) := by
  cases a <;> rfl

theorem find?_filter_ne {α : Type} (m : List (String × α)) (k k' : String) (h : k' ≠ k) :
    (m.filter (fun p => !(p.1 == k))).find? (fun p => p.1 == k') =
      m.find? (fun p => p.1 == k') := by
  induction m with
  | nil => rfl
  | cons p t ih =>
    by_cases hk : p.1 = k
    · have h1 : (p.1 == k) = true := beq_iff_eq.mpr hk
      have h2 : (p.1 == k') = false :=
        beq_eq_false_iff_ne.mpr (by rw [hk]; exact fun e => h e.symm)
      simp [List.filter_cons, h1, List.find?_cons, h2, ih]
    · have h1 : (p.1 == k) = false := beq_eq_false_iff_ne.mpr hk
      cases hpk : (p.1 == k') <;>
        simp [List.filter_cons, h1, List.find?_cons, hpk, ih]

theorem mapFind_insert {α : Type} (m : List (String × α)) (k : String) (v : α) (k' : String) :
    mapFind (mapInsert m k v) k' = if k' = k then some v else mapFind m k' := by
  unfold mapFind mapInsert
  by_cases h : k' = k
  · subst h
    simp [List.find?_cons]
  · have h1 : (k == k') = false := beq_eq_false_iff_ne.mpr (fun e => h e.symm)
    simp [List.find?_cons, h1, find?_filter_ne _ _ _ h, h]

theorem mapFind_foldl_insert {α : Type} (events : List (String × α))
    (m : List (String × α)) (k : String) :
    mapFind (events.foldl (fun m e => mapInsert m e.1 e.2) m) k
      = ((events.filter (fun e => e.1 == k)).getLast?.map (fun e => e.2)).or (mapFind m k) := by
  induction events generalizing m with
  | nil => simp
  | cons e t ih =>
    rw [List.foldl_cons, ih]
    by_cases h : e.1 = k
    · have h1 : (e.1 == k) = true := beq_iff_eq.mpr h
      simp [List.filter_cons, h1, mapFind_insert, h.symm, getLast?_cons_or,
        option_map_or, Option.or_assoc, Option.or_some]
    · have h1 : (e.1 == k) = false := beq_eq_false_iff_ne.mpr h
      have h2 : ¬(k = e.1) := fun e' => h e'.symm
      simp [List.filter_cons, h1, mapFind_insert, h2]

theorem foldl_plugin_insert (f : String → Option Plugin) (xs : List String)
    (m : List (String × String)) :
    xs.foldl
      (fun plugins line =>
        match f line with
        | none => plugins
        | some plugin => mapInsert plugins plugin.name plugin.version)
      m
    = (xs.filterMap (fun line => (f line).map (fun plugin => (plugin.name, plugin.version)))).foldl
        (fun m e => mapInsert m e.1 e.2) m := by
  induction xs generalizing m with
  | nil => rfl
  | cons x t ih => cases hx : f x <;> simp [List.filterMap_cons, hx, ih]

theorem foldl_extract_insert {β : Type} (f : β → Option (String × Nat)) (xs : List β)
    (m : List (String × Nat)) :
    xs.foldl
      (fun ports x =>
        match f x with
        | none => ports
        | some result => mapInsert ports result.1 result.2)
      m
    = (xs.filterMap f).foldl (fun m e => mapInsert m e.1 e.2) m := by
  induction xs generalizing m with
  | nil => rfl
  | cons x t ih => cases hx : f x <;> simp [List.filterMap_cons, hx, ih]

theorem foldl_flatMap_eq {γ σ δ : Type} (f : δ → σ → δ) (g : γ → List σ)
    (l : List γ) (init : δ) :
    (l.flatMap g).foldl f init = l.foldl (fun acc x => (g x).foldl f acc) init := by
  induction l generalizing init with
  | nil => rfl
  | cons x t ih => simp [List.flatMap_cons, List.foldl_append, ih]

theorem portScan_eq (port : String → String → String → Option (String × Nat))
    (lines : List String) (table : List (String × List String))
    (m : List (String × Nat)) :
    lines.foldl
      (fun ports line =>
        table.foldl
          (fun ports entry =>
            entry.2.foldl
              (fun ports must_contain =>
                match port entry.1 line must_contain with
                | none => ports
                | some result => mapInsert ports result.1 result.2)
              ports)
          ports)
      m
    = (portEvents port lines table).foldl (fun m e => mapInsert m e.1 e.2) m := by
  have hentry : ∀ (line : String),
      (fun (ports : List (String × Nat)) entry =>
        entry.2.foldl
          (fun ports must_contain =>
            match port entry.1 line must_contain with
            | none => ports
            | some result => mapInsert ports result.1 result.2)
          ports)
      = (fun (acc : List (String × Nat)) (entry : String × List String) =>
          (entry.2.filterMap (fun must_contain => port entry.1 line must_contain)).foldl
            (fun m e => mapInsert m e.1 e.2) acc) := by
    intro line
    funext acc entry
    exact foldl_extract_insert (fun must_contain => port entry.1 line must_contain) entry.2 acc
  have hline :
      (fun (ports : List (String × Nat)) line =>
        table.foldl
          (fun ports entry =>
            entry.2.foldl
              (fun ports must_contain =>
                match port entry.1 line must_contain with
                | none => ports
                | some result => mapInsert ports result.1 result.2)
              ports)
          ports)
      = (fun (acc : List (String × Nat)) (line : String) =>
          (table.flatMap (fun entry =>
            entry.2.filterMap (fun must_contain => port entry.1 line must_contain))).foldl
            (fun m e => mapInsert m e.1 e.2) acc) := by
    funext acc line
    rw [hentry line, foldl_flatMap_eq]
  rw [hline]
  rw [portEvents, foldl_flatMap_eq]

theorem findFirstVersion_eq (f : String → Option String) (lines : List String) :
    findFirstVersion f lines = (lines.filterMap f).head? := by
  induction lines with
  | nil => rfl
  | cons l t ih => cases hl : f l <;> simp [findFirstVersion, List.filterMap_cons, hl, ih]

theorem bukkit_not_proxy (p : Platform) (h : is_bukkit_based p = true) :
    is_proxy p = false := by
  cases p <;> simp_all [is_proxy, is_bukkit_based]

theorem plugins_eq_foldl (plugin_bukkit : String → Option Plugin) (lines : List String)
    (p : Platform) (line_limit : Nat) (h : is_bukkit_based p = true) :
    Analyzer.plugins plugin_bukkit ⟨lines, p⟩ line_limit
      = ((lines.take line_limit).filterMap
          (fun line => (plugin_bukkit line).map (fun plugin => (plugin.name, plugin.version)))).foldl
          (fun m e => mapInsert m e.1 e.2) [] := by
  unfold Analyzer.plugins
  simp only [bukkit_not_proxy p h, h, Bool.false_eq_true, if_false, if_true]
  exact foldl_plugin_insert plugin_bukkit (lines.take line_limit) []

theorem vanilla_foldl (vanilla_port : String → String → Option Nat)
    (lines : List String) (vp0 : VanillaPorts) :
    lines.foldl
      (fun vp line =>
        let vp1 :=
          match vanilla_port line SERVER_PORT_MESSAGE with
          | none => vp
          | some port => { vp with server := some port }
        let vp2 :=
          match vanilla_port line QUERY_PORT_MESSAGE with
          | none => vp1
          | some port => { vp1 with query := some port }
        match vanilla_port line RCON_PORT_MESSAGE with
        | none => vp2
        | some port => { vp2 with rcon := some port })
      vp0
    = { server := (lines.filterMap (fun line => vanilla_port line SERVER_PORT_MESSAGE)).getLast?.or vp0.server
        query := (lines.filterMap (fun line => vanilla_port line QUERY_PORT_MESSAGE)).getLast?.or vp0.query
        rcon := (lines.filterMap (fun line => vanilla_port line RCON_PORT_MESSAGE)).getLast?.or vp0.rcon } := by
  induction lines generalizing vp0 with
  | nil => simp
  | cons l t ih =>
    rw [List.foldl_cons, ih]
    cases hs : vanilla_port l SERVER_PORT_MESSAGE <;>
    cases hq : vanilla_port l QUERY_PORT_MESSAGE <;>
    cases hr : vanilla_port l RCON_PORT_MESSAGE <;>
    simp [List.filterMap_cons, hs, hq, hr, getLast?_cons_or, Option.or_assoc, Option.or_some]

theorem plugin_ports_eq_foldl (port : String → String → String → Option (String × Nat))
    (lines : List String) (p : Platform) (root : PortsRoot) (limit : Nat)
    (h : is_bukkit_based p = true) :
    Analyzer.plugin_ports port ⟨lines, p⟩ root limit
      = (portEvents port (lines.take limit) root.ports.plugins).foldl
          (fun m e => mapInsert m e.1 e.2) [] := by
  unfold Analyzer.plugin_ports
  simp only [h, Bool.not_true, Bool.false_eq_true, if_false]
  exact portScan_eq port (lines.take limit) root.ports.plugins []

theorem mod_ports_eq_foldl (port : String → String → String → Option (String × Nat))
    (lines : List String) (p : Platform) (root : PortsRoot) (limit : Nat)
    (h : is_modded p = true) :
    Analyzer.mod_ports port ⟨lines, p⟩ root limit
      = (portEvents port (lines.take limit) root.ports.mods).foldl
          (fun m e => mapInsert m e.1 e.2) [] := by
  unfold Analyzer.mod_ports
  simp only [h, Bool.not_true, Bool.false_eq_true, if_false]
  exact portScan_eq port (lines.take limit) root.ports.mods []

/-- C1: contrary to the claim, Analyzer::build unwraps both the
configuration/ports.toml read and the toml parse, so a missing resource
and malformed content both end in the same process abort: no recoverable
error value, no distinction between missing and malformed, and no report
(in particular no partial report). -/
theorem build_aborts_on_config_failure (plugin_bukkit : String → Option Plugin)
    (noproxy_server_version : String → Option String)
    (vanilla_port : String → String → Option Nat)
    (port : String → String → String → Option (String × Nat))
    (toml_from_str : String → Option PortsRoot)
    (a : Analyzer) (plugins_limit ports_limit : Nat) (contents : String) :
    Analyzer.build plugin_bukkit noproxy_server_version vanilla_port port
        none toml_from_str a plugins_limit ports_limit = BuildResult.processAbort
    ∧ Analyzer.build plugin_bukkit noproxy_server_version vanilla_port port
        (some contents) (fun _ => none) a plugins_limit ports_limit = BuildResult.processAbort :=
  ⟨rfl, rfl⟩

/-- C2: if any line of the input contains the Paper banner, detection
returns Paper, regardless of whatever else (including a CraftBukkit
banner) appears anywhere in the line set. -/
theorem detect_paper_banner_wins (lines : List String) (l : String) (hl : l ∈ lines)
    (hp : strContains l PAPER = true) :
    determine_platform lines = Platform.Paper := by
  have h : lines.any (fun line => strContains line PAPER) = true :=
    List.any_eq_true.mpr ⟨l, hl, hp⟩
  simp [determine_platform, h]

theorem detect_paper_banner_wins_witness :
    determine_platform
      ["This server is running CraftBukkit version git-1",
       "ab This server is running Paper version 1.2"] = Platform.Paper :=
  detect_paper_banner_wins _ "ab This server is running Paper version 1.2"
    (List.mem_cons_of_mem _ (List.mem_cons_self _ _)) (by decide)

/-- C3: with no Paper banner present, the FIRST line containing the
CraftBukkit banner decides the platform: Spigot if it also contains
"-Spigot", else Paper if it also contains "Paper", else CraftBukkit. -/
theorem detect_craftbukkit_first_line (lines : List String) (l : String)
    (hp : lines.any (fun line => strContains line PAPER) = false)
    (hc : lines.find? (fun line => strContains line CRAFTBUKKIT) = some l) :
    determine_platform lines =
      (if strContains l "-Spigot" then Platform.Spigot
       else if strContains l "Paper" then Platform.Paper
       else Platform.CraftBukkit) := by
  simp [determine_platform, hp, hc]

theorem detect_craftbukkit_first_line_witness :
    determine_platform ["This server is running CraftBukkit version 1.20-Spigot"]
      = Platform.Spigot := by
  have h := detect_craftbukkit_first_line
    ["This server is running CraftBukkit version 1.20-Spigot"]
    "This server is running CraftBukkit version 1.20-Spigot" (by decide) (by decide)
  exact h.trans (by decide)

/-- C4: detection is a total function; when neither the Paper banner nor a
CraftBukkit banner line exists, the remaining markers are tested in the
fixed order Purpur, Pufferfish, BungeeCord, Waterfall, Velocity, Forge,
Fabric with the first hit winning, and Vanilla is returned when nothing
matches (in particular for the empty line set). -/
theorem detect_fallback_order (lines : List String)
    (hp : lines.any (fun line => strContains line PAPER) = false)
    (hc : lines.any (fun line => strContains line CRAFTBUKKIT) = false) :
    determine_platform lines =
      (if lines.any (fun line => strContains line PURPUR) then Platform.Purpur
       else if lines.any (fun line => strContains line PUFFERFISH) then Platform.Pufferfish
       else if lines.any (fun line => strContains line BUNGEECORD) then Platform.BungeeCord
       else if lines.any (fun line => strContains line WATERFALL) then Platform.Waterfall
       else if lines.any (fun line => strContains line VELOCITY) then Platform.Velocity
       else if lines.any (fun line => strContains line FORGE) then Platform.Forge
       else if lines.any (fun line => strContains line FABRIC) then Platform.Fabric
       else Platform.Vanilla) := by
  have hfind : lines.find? (fun line => strContains line CRAFTBUKKIT) = none :=
    List.find?_eq_none.mpr (List.any_eq_false.mp hc)
  simp [determine_platform, hp, hfind]

theorem detect_fallback_order_witness :
    determine_platform [] = Platform.Vanilla := by
  have h := detect_fallback_order [] rfl rfl
  exact h.trans (by decide)

/-- C5: plugin extraction returns the empty mapping whenever the platform
is not Bukkit-derived (so for every proxy, modded or Vanilla platform);
it scans only the first line_limit lines (lines beyond the budget never
contribute); and on a Bukkit-derived platform the binding of each plugin
name is the version from the LAST scanned line yielding that name. -/
theorem plugins_policy (plugin_bukkit : String → Option Plugin) (a : Analyzer)
    (line_limit : Nat) :
    (is_bukkit_based a.platform = false → a.plugins plugin_bukkit line_limit = [])
    ∧ a.plugins plugin_bukkit line_limit
        = Analyzer.plugins plugin_bukkit ⟨a.lines.take line_limit, a.platform⟩ line_limit
    ∧ (is_bukkit_based a.platform = true → ∀ name,
        mapFind (a.plugins plugin_bukkit line_limit) name
          = ((((a.lines.take line_limit).filterMap
                (fun line => (plugin_bukkit line).map
                  (fun plugin => (plugin.name, plugin.version)))).filter
                (fun e => e.1 == name)).getLast?).map (fun e => e.2)) := by
  obtain ⟨lines, p⟩ := a
  refine ⟨?_, ?_, ?_⟩
  · intro hb
    unfold Analyzer.plugins
    simp only [hb, Bool.false_eq_true, if_false, ite_self]
    exact foldl_const _ _
  · unfold Analyzer.plugins
    simp [List.take_take]
  · intro hb name
    rw [plugins_eq_foldl plugin_bukkit lines p line_limit hb, mapFind_foldl_insert]
    simp [mapFind]

theorem plugins_policy_witness :
    mapFind (Analyzer.plugins pbW ⟨["pa", "pb", "px"], Platform.Paper⟩ 2) "A" = some "2"
    ∧ Analyzer.plugins pbW ⟨["pa"], Platform.Vanilla⟩ 2 = [] := by
  constructor
  · have h := (plugins_policy pbW ⟨["pa", "pb", "px"], Platform.Paper⟩ 2).2.2 rfl "A"
    exact h.trans (by decide)
  · exact (plugins_policy pbW ⟨["pa"], Platform.Vanilla⟩ 2).1 rfl

/-- C6: vanilla port extraction scans every line, whatever the platform
and with no scan limit; for each of the three fixed markers the final
field value comes from the LAST line on which the primitive fires, and a
field with no firing line stays none. -/
theorem vanilla_ports_last_match_wins (vanilla_port : String → String → Option Nat)
    (a : Analyzer) :
    a.vanilla_ports vanilla_port =
      { server := (a.lines.filterMap (fun line => vanilla_port line SERVER_PORT_MESSAGE)).getLast?
        query := (a.lines.filterMap (fun line => vanilla_port line QUERY_PORT_MESSAGE)).getLast?
        rcon := (a.lines.filterMap (fun line => vanilla_port line RCON_PORT_MESSAGE)).getLast? }
    ∧ ∀ p : Platform,
        Analyzer.vanilla_ports vanilla_port ⟨a.lines, p⟩ = a.vanilla_ports vanilla_port := by
  constructor
  · unfold Analyzer.vanilla_ports
    rw [vanilla_foldl]
    simp [Option.or_none]
  · intro p
    rfl

/-- C7: plugin-port extraction is empty unless the platform is
Bukkit-derived and scans only the first ports_limit lines; within the
scan, every required substring of every table entry is an independent
alternative trigger, and each name's final port is the LAST successful
extraction in line-major, then entry, then substring order. Mod-port
extraction runs the identical algorithm gated on a modded platform and
reading the mods section of the table. -/
theorem plugin_and_mod_ports_policy (port : String → String → String → Option (String × Nat))
    (a : Analyzer) (root : PortsRoot) (limit : Nat) :
    (is_bukkit_based a.platform = false → a.plugin_ports port root limit = [])
    ∧ a.plugin_ports port root limit
        = Analyzer.plugin_ports port ⟨a.lines.take limit, a.platform⟩ root limit
    ∧ (is_bukkit_based a.platform = true → ∀ name,
        mapFind (a.plugin_ports port root limit) name
          = (((portEvents port (a.lines.take limit) root.ports.plugins).filter
              (fun e => e.1 == name)).getLast?).map (fun e => e.2))
    ∧ (is_modded a.platform = false → a.mod_ports port root limit = [])
    ∧ a.mod_ports port root limit
        = Analyzer.mod_ports port ⟨a.lines.take limit, a.platform⟩ root limit
    ∧ (is_modded a.platform = true → ∀ name,
        mapFind (a.mod_ports port root limit) name
          = (((portEvents port (a.lines.take limit) root.ports.mods).filter
              (fun e => e.1 == name)).getLast?).map (fun e => e.2)) := by
  obtain ⟨lines, p⟩ := a
  refine ⟨?_, ?_, ?_, ?_, ?_, ?_⟩
  · intro hb
    unfold Analyzer.plugin_ports
    simp [hb]
  · unfold Analyzer.plugin_ports
    simp [List.take_take]
  · intro hb name
    rw [plugin_ports_eq_foldl port lines p root limit hb, mapFind_foldl_insert]
    simp [mapFind]
  · intro hm
    unfold Analyzer.mod_ports
    simp [hm]
  · unfold Analyzer.mod_ports
    simp [List.take_take]
  · intro hm name
    rw [mod_ports_eq_foldl port lines p root limit hm, mapFind_foldl_insert]
    simp [mapFind]

theorem plugin_and_mod_ports_policy_witness :
    mapFind (Analyzer.plugin_ports ppW ⟨["xfoo", "yybar", "zzz"], Platform.Paper⟩ rootW 2) "svc" = some 5
    ∧ mapFind (Analyzer.mod_ports ppW ⟨["qbaz"], Platform.Forge⟩ rootW 2) "modsvc" = some 4 := by
  constructor
  · have h := (plugin_and_mod_ports_policy ppW ⟨["xfoo", "yybar", "zzz"], Platform.Paper⟩ rootW 2).2.2.1 rfl "svc"
    exact h.trans (by decide)
  · have h := (plugin_and_mod_ports_policy ppW ⟨["qbaz"], Platform.Forge⟩ rootW 2).2.2.2.2.2 rfl "modsvc"
    exact h.trans (by decide)

/-- C8: version extraction returns none on every proxy platform; on every
other platform it scans all lines in order and returns the FIRST
successful extraction, none when no line yields one. -/
theorem version_policy (noproxy_server_version : String → Option String) (a : Analyzer) :
    a.version noproxy_server_version
      = if is_proxy a.platform then none
        else (a.lines.filterMap noproxy_server_version).head? := by
  unfold Analyzer.version
  rw [findFirstVersion_eq]

/-- C9: in every report build produces, the three flags equal the pure
predicates applied to the report's platform, and those predicates are
exactly the proxy / modded / Bukkit-derived platform enumerations, with
at most one of the three true for any platform value. -/
theorem flags_derived_consistent (plugin_bukkit : String → Option Plugin)
    (noproxy_server_version : String → Option String)
    (vanilla_port : String → String → Option Nat)
    (port : String → String → String → Option (String × Nat))
    (read_ports_file : Option String) (toml_from_str : String → Option PortsRoot)
    (a : Analyzer) (plugins_limit ports_limit : Nat) (r : DynamicAnalyzerDetails)
    (h : Analyzer.build plugin_bukkit noproxy_server_version vanilla_port port
          read_ports_file toml_from_str a plugins_limit ports_limit = BuildResult.ok r) :
    (r.platform = a.platform
      ∧ r.is_proxy = is_proxy r.platform
      ∧ r.is_modded = is_modded r.platform
      ∧ r.is_bukkit_based = is_bukkit_based r.platform)
    ∧ (∀ p : Platform,
        (is_proxy p = true ↔
          (p = Platform.BungeeCord ∨ p = Platform.Waterfall ∨ p = Platform.Velocity))
        ∧ (is_modded p = true ↔ (p = Platform.Forge ∨ p = Platform.Fabric))
        ∧ (is_bukkit_based p = true ↔
          (p = Platform.CraftBukkit ∨ p = Platform.Spigot ∨ p = Platform.Paper
            ∨ p = Platform.Pufferfish ∨ p = Platform.Purpur))
        ∧ ¬(is_proxy p = true ∧ is_modded p = true)
        ∧ ¬(is_proxy p = true ∧ is_bukkit_based p = true)
        ∧ ¬(is_modded p = true ∧ is_bukkit_based p = true)) := by
  constructor
  · unfold Analyzer.build at h
    cases read_ports_file with
    | none => exact absurd h (by simp)
    | some contents =>
      dsimp only at h
      cases ht : toml_from_str contents with
      | none => rw [ht] at h; exact absurd h (by simp)
      | some root =>
        rw [ht] at h
        injection h with h2
        subst h2
        exact ⟨rfl, rfl, rfl, rfl⟩
  · intro p
    cases p <;> decide

theorem flags_derived_consistent_witness :
    reportW.platform = Platform.Forge ∧ reportW.is_modded = is_modded reportW.platform := by
  have h := flags_derived_consistent (fun _ => none) (fun _ => none) (fun _ _ => none)
    (fun _ _ _ => none) (some "") (fun _ => some { ports := { plugins := [], mods := [] } })
    ⟨[], Platform.Forge⟩ 1 1 reportW rfl
  exact ⟨h.1.1, h.1.2.2.1⟩

/-- C10: plugin-port extraction is gated on a Bukkit-derived platform and
mod-port extraction on a modded one, and no platform satisfies both, so
for any single input at least one of the two port mappings is empty —
both at the extractor level and inside every report build produces. -/
theorem ports_never_both_nonempty (port : String → String → String → Option (String × Nat))
    (a : Analyzer) (root : PortsRoot) (limit : Nat) :
    (a.plugin_ports port root limit = [] ∨ a.mod_ports port root limit = [])
    ∧ (∀ (plugin_bukkit : String → Option Plugin)
        (noproxy_server_version : String → Option String)
        (vanilla_port : String → String → Option Nat)
        (read_ports_file : Option String) (toml_from_str : String → Option PortsRoot)
        (plugins_limit : Nat) (r : DynamicAnalyzerDetails),
        Analyzer.build plugin_bukkit noproxy_server_version vanilla_port port
            read_ports_file toml_from_str a plugins_limit limit = BuildResult.ok r →
        (r.ports.plugins = [] ∨ r.ports.mods = [])) := by
  obtain ⟨lines, p⟩ := a
  have hfn : ∀ (root' : PortsRoot) (lim : Nat),
      Analyzer.plugin_ports port ⟨lines, p⟩ root' lim = []
        ∨ Analyzer.mod_ports port ⟨lines, p⟩ root' lim = [] := by
    intro root' lim
    cases p <;> first | exact Or.inl rfl | exact Or.inr rfl
  refine ⟨hfn root limit, ?_⟩
  intro pb nv vp rf ts pl r h
  unfold Analyzer.build at h
  cases rf with
  | none => exact absurd h (by simp)
  | some contents =>
    dsimp only at h
    cases ht : ts contents with
    | none => rw [ht] at h; exact absurd h (by simp)
    | some root' =>
      rw [ht] at h
      injection h with h2
      subst h2
      exact hfn root' limit

theorem ports_never_both_nonempty_witness :
    reportW.ports.plugins = [] ∨ reportW.ports.mods = [] :=
  (ports_never_both_nonempty (fun _ _ _ => none) ⟨[], Platform.Forge⟩
      { ports := { plugins := [], mods := [] } } 1).2
    (fun _ => none) (fun _ => none) (fun _ _ => none) (some "")
    (fun _ => some { ports := { plugins := [], mods := [] } }) 1 reportW rfl
